import Mathlib

/-!
Verification of the StateBot fact-driven state determination core.

The definitions below are a shallow embedding of the TypeScript sources:
* `src/stores/statebot.store.ts` (class `StateBotStore`): the state record,
  the cache, `generateCacheKey`, `isCacheValid`, `updateStateStore`,
  `updateState`, the fact mutations, `clearFacts`, `reset`, the debounce
  scheduler (`scheduleStateUpdate` / `determineState`), and the
  constructor's config defaulting.
* `src/services/statebot/*-integration.service.ts` (`ClaudeService`,
  `GeminiService`, `ChatGPTService`): the common retry loop of
  `determineState`.

Modelling conventions:
* JS `number` timestamps (`Date.getTime()`) become `Nat`; confidences
  become `ℚ`.
* The awaited outcome of a single `llmService.determineState` call is an
  `Except String (LLMResp σ)` value passed in as a parameter, so a
  determination cycle is a pure function of the store record, the cache,
  the clock and that outcome.
* The JS `Map` used for the cache becomes an association list whose
  `set` prepends (lookup finds the newest binding, which is exactly the
  observable `Map.get` behaviour).
* A svelte `writable` store notifies every subscriber synchronously on
  each `update`/`set` call; a mutation method is therefore modelled by
  the list of record values it pushes to the store, in order.
-/

namespace StateBot

variable {σ : Type} [DecidableEq σ]

/-- One entry of `StateBotState.transitions`
(`types/statebot.store.ts`, field `transitions`).  The TS field `from` is a
Lean keyword, hence `fromState`/`toState`. -/
structure Transition (σ : Type) where
  fromState : Option σ
  toState : σ
  timestamp : Nat
  facts : List String
  deriving DecidableEq

/-- The `StateBotState` record held by the svelte store
(`types/statebot.store.ts`).  `error?: string` becomes `Option String`. -/
structure StateBotState (σ : Type) where
  currentState : Option σ
  previousState : Option σ
  facts : List String
  confidence : ℚ
  lastUpdated : Nat
  transitions : List (Transition σ)
  error : Option String
  deriving DecidableEq

/-- The initial store value set at construction and by
`reset()`; `new Date()` is the clock value `now`. -/
def initialRecord (now : Nat) : StateBotState σ :=
  { currentState := none
    previousState := none
    facts := []
    confidence := 0
    lastUpdated := now
    transitions := []
    error := none }

/-- The sort step of `generateCacheKey`: `facts.slice().sort()` sorts the
copied array lexicographically.  Modelled with `List.insertionSort` over
the linear order on `String`. -/
def sortedFacts (facts : List String) : List String :=
  List.insertionSort (fun a b => a ≤ b) facts

/-- `generateCacheKey` (statebot.store.ts, lines 239-242):
`facts.slice().sort().join('|')`. -/
def generateCacheKey (facts : List String) : String :=
  String.intercalate "|" (sortedFacts facts)

/-- The value type of the cache map (statebot.store.ts, line 27). -/
structure CacheEntry (σ : Type) where
  state : σ
  confidence : ℚ
  timestamp : Nat
  deriving DecidableEq

/-- The cache `Map<string, CacheEntry>`, as an association list. -/
abbrev Cache (σ : Type) := List (String × CacheEntry σ)

/-- `Map.get`: the newest binding of the key, if any. -/
def cacheGet (c : Cache σ) (k : String) : Option (CacheEntry σ) :=
  c.lookup k

/-- `Map.set`: bind the key to the new entry (shadowing any older one). -/
def cacheSet (c : Cache σ) (k : String) (e : CacheEntry σ) : Cache σ :=
  (k, e) :: c

/-- `isCacheValid` (statebot.store.ts, lines 244-249):
`now.getTime() - timestamp.getTime() < cacheExpiry`. -/
def isCacheValid (cacheExpiry : Nat) (now timestamp : Nat) : Bool :=
  now - timestamp < cacheExpiry

/-- The cache consultation in `updateState` (lines 178-182): the entry for
the key, provided it exists and `isCacheValid` holds. -/
def validCacheEntry (cacheExpiry now : Nat) (c : Cache σ) (k : String) :
    Option (CacheEntry σ) :=
  match cacheGet c k with
  | some e => if isCacheValid cacheExpiry now e.timestamp then some e else none
  | none => none

/-- The config input: the four optional numeric options of
`StateBotConfig` (`types/statebot.store.ts`). -/
structure StateBotConfigInput where
  cacheExpiry : Option Nat
  debounceTime : Option Nat
  retryCount : Option Nat
  determinationThreshold : Option ℚ

/-- The four options after the constructor ran. -/
structure StateBotConfigResolved where
  cacheExpiry : Nat
  debounceTime : Nat
  retryCount : Nat
  determinationThreshold : ℚ
  deriving DecidableEq

/-- JS logical-or defaulting (`config.x || default`): `undefined` and `0`
are both falsy, so both are replaced by the default. -/
def jsOrNat (v : Option Nat) (d : Nat) : Nat :=
  match v with
  | none => d
  | some x => if x = 0 then d else x

/-- JS logical-or defaulting for the rational-valued option. -/
def jsOrRat (v : Option ℚ) (d : ℚ) : ℚ :=
  match v with
  | none => d
  | some x => if x = 0 then d else x

/-- The constructor's config resolution (statebot.store.ts, lines 29-40):
each optional value is defaulted with `||`. -/
def resolveConfig (c : StateBotConfigInput) : StateBotConfigResolved :=
  { cacheExpiry := jsOrNat c.cacheExpiry (5 * 60 * 1000)
    debounceTime := jsOrNat c.debounceTime 500
    retryCount := jsOrNat c.retryCount 3
    determinationThreshold := jsOrRat c.determinationThreshold (7 / 10) }

/-- Concrete config input for the defaulting witness: all four options
explicitly set to `0`. -/
def allZeroConfig : StateBotConfigInput :=
  { cacheExpiry := some 0
    debounceTime := some 0
    retryCount := some 0
    determinationThreshold := some 0 }

/-- The response value of `llmService.determineState`
(`LLMStateResponse` in `types/statebot.store.ts`); the optional
`reasoning` text plays no role in the store logic. -/
structure LLMResp (σ : Type) where
  state : σ
  confidence : ℚ
  deriving DecidableEq

/-- `updateStateStore` (statebot.store.ts, lines 211-236): apply a
determination result `(newState, confidence)` to the record at clock
value `now`.  A transition is appended exactly when
`state.currentState !== newState`; `previousState` moves only then;
`confidence`, `lastUpdated` are always refreshed and `error` is cleared. -/
def updateStateStore (newState : σ) (confidence : ℚ) (now : Nat)
    (st : StateBotState σ) : StateBotState σ :=
  let stateChanged := st.currentState ≠ some newState
  let transitions :=
    if stateChanged then
      st.transitions ++
        [{ fromState := st.currentState
           toState := newState
           timestamp := now
           facts := st.facts }]
    else st.transitions
  { st with
    previousState := if stateChanged then st.currentState else st.previousState
    currentState := some newState
    confidence := confidence
    lastUpdated := now
    transitions := transitions
    error := none }

/-- The outcome of one `updateState` cycle: the value the promise settles
with, the new record, the new cache, and how many `llmService` calls the
cycle made. -/
structure UpdateOutcome (σ : Type) where
  result : Except String (Option σ)
  record : StateBotState σ
  cache : Cache σ
  backendCalls : Nat

/-- `updateState` (statebot.store.ts, lines 165-208) as a pure function of
the record, the cache, the clock, and the awaited outcome `backend` of
this cycle's single `llmService.determineState` call.  Empty facts:
return the current state untouched.  Valid cache entry: apply it, no
backend call.  Otherwise consult the backend: on success cache and apply
the response; on failure set `error` on the record and re-raise. -/
def updateState (cacheExpiry : Nat) (backend : Except String (LLMResp σ))
    (now : Nat) (st : StateBotState σ) (cache : Cache σ) : UpdateOutcome σ :=
  if st.facts = [] then
    { result := .ok st.currentState, record := st, cache := cache
      backendCalls := 0 }
  else
    let cacheKey := generateCacheKey st.facts
    match validCacheEntry cacheExpiry now cache cacheKey with
    | some e =>
      { result := .ok (some e.state)
        record := updateStateStore e.state e.confidence now st
        cache := cache
        backendCalls := 0 }
    | none =>
      match backend with
      | .ok r =>
        { result := .ok (some r.state)
          record := updateStateStore r.state r.confidence now st
          cache := cacheSet cache cacheKey
            { state := r.state, confidence := r.confidence, timestamp := now }
          backendCalls := 1 }
      | .error e =>
        { result := .error e
          record := { st with error := some e }
          cache := cache
          backendCalls := 1 }

/-- C3: for every pair of fact lists that are permutations of each other
(with multiplicity), `generateCacheKey` produces the same cache key; the
sorted list underlying the key preserves every fact's multiplicity, so
duplicate facts are preserved in the key. -/
theorem generateCacheKey_perm_invariant (l1 l2 : List String)
    (h : l1.Perm l2) :
    generateCacheKey l1 = generateCacheKey l2 ∧
    ∀ f, (sortedFacts l1).count f = l1.count f := by
  constructor
  · unfold generateCacheKey
    congr 1
    have p1 : (sortedFacts l1).Perm l1 :=
      List.perm_insertionSort (fun a b => a ≤ b) l1
    have p2 : (sortedFacts l2).Perm l2 :=
      List.perm_insertionSort (fun a b => a ≤ b) l2
    have hp : (sortedFacts l1).Perm (sortedFacts l2) :=
      (p1.trans h).trans p2.symm
    exact List.eq_of_perm_of_sorted hp
      (List.sorted_insertionSort (fun a b => a ≤ b) l1)
      (List.sorted_insertionSort (fun a b => a ≤ b) l2)
  · intro f
    exact (List.perm_insertionSort (fun a b => a ≤ b) l1).count_eq f

/-- Witness for C3 at the concrete permutation of a list with a duplicate. -/
theorem generateCacheKey_perm_invariant_witness :
    generateCacheKey ["b", "a", "b"] = generateCacheKey ["a", "b", "b"] ∧
    ∀ f, (sortedFacts ["b", "a", "b"]).count f = ["b", "a", "b"].count f :=
  generateCacheKey_perm_invariant ["b", "a", "b"] ["a", "b", "b"] (by decide)

/-- C10: the constructor defaults the optional config values with
logical-or, so an explicitly supplied `0` for `cacheExpiry`,
`debounceTime`, `retryCount`, or `determinationThreshold` is replaced by
the default (300000, 500, 3, 0.7 respectively); in particular
`retryCount = 0` still yields 3 retry attempts and `debounceTime = 0`
still yields a 500-time-unit debounce. -/
theorem zero_config_replaced_by_defaults (c : StateBotConfigInput)
    (h1 : c.cacheExpiry = some 0) (h2 : c.debounceTime = some 0)
    (h3 : c.retryCount = some 0) (h4 : c.determinationThreshold = some 0) :
    (resolveConfig c).cacheExpiry = 300000 ∧
    (resolveConfig c).debounceTime = 500 ∧
    (resolveConfig c).retryCount = 3 ∧
    (resolveConfig c).determinationThreshold = 7 / 10 := by
  simp [resolveConfig, jsOrNat, jsOrRat, h1, h2, h3, h4]

/-- Witness for C10 on the all-zero config input. -/
theorem zero_config_replaced_by_defaults_witness :
    (resolveConfig allZeroConfig).cacheExpiry = 300000 ∧
    (resolveConfig allZeroConfig).debounceTime = 500 ∧
    (resolveConfig allZeroConfig).retryCount = 3 ∧
    (resolveConfig allZeroConfig).determinationThreshold = 7 / 10 :=
  zero_config_replaced_by_defaults allZeroConfig rfl rfl rfl rfl

/-- Facts are untouched by `updateStateStore`. -/
theorem updateStateStore_facts (newState : σ) (conf : ℚ) (now : Nat)
    (st : StateBotState σ) :
    (updateStateStore newState conf now st).facts = st.facts := rfl

/-- Concrete record for the C1 witness: current state `X`, one fact. -/
def recC1 : StateBotState String :=
  { currentState := some "X", previousState := none, facts := ["f1"]
    confidence := 0, lastUpdated := 0, transitions := [], error := none }

/-- C1: applying a determination result `(newState, confidence)` appends a
transition `{from := old current, to := newState, timestamp := now,
facts := snapshot}` if and only if `newState` differs from the current
state; when equal, the transition list is unchanged and `previousState`
keeps its value; in both cases `lastUpdated` and `confidence` are
refreshed; `previousState` becomes the old current state only on change. -/
theorem transition_append_law (newState : σ) (conf : ℚ) (now : Nat)
    (st : StateBotState σ) :
    (st.currentState ≠ some newState →
      (updateStateStore newState conf now st).transitions =
        st.transitions ++
          [{ fromState := st.currentState, toState := newState
             timestamp := now, facts := st.facts }] ∧
      (updateStateStore newState conf now st).previousState =
        st.currentState) ∧
    (st.currentState = some newState →
      (updateStateStore newState conf now st).transitions = st.transitions ∧
      (updateStateStore newState conf now st).previousState =
        st.previousState) ∧
    ((updateStateStore newState conf now st).transitions ≠ st.transitions ↔
      st.currentState ≠ some newState) ∧
    (updateStateStore newState conf now st).currentState = some newState ∧
    (updateStateStore newState conf now st).confidence = conf ∧
    (updateStateStore newState conf now st).lastUpdated = now := by
  by_cases h : st.currentState = some newState <;>
    simp [updateStateStore, h]

/-- Witness for C1: a state change from `X` to `A` appends the transition
and moves `previousState`. -/
theorem transition_append_law_witness :
    ((updateStateStore "A" 1 5 recC1).transitions =
      recC1.transitions ++
        [{ fromState := recC1.currentState, toState := "A"
           timestamp := 5, facts := recC1.facts }] ∧
     (updateStateStore "A" 1 5 recC1).previousState = recC1.currentState) ∧
    (updateStateStore "A" 1 5 recC1).currentState = some "A" :=
  ⟨(transition_append_law "A" 1 5 recC1).1 (by decide),
   (transition_append_law "A" 1 5 recC1).2.2.2.1⟩

/-- Concrete record for the C2 witness. -/
def recC2 : StateBotState String :=
  { currentState := some "X", previousState := some "W", facts := ["f1"]
    confidence := 1, lastUpdated := 3
    transitions := [{ fromState := some "W", toState := "X"
                      timestamp := 3, facts := ["f1"] }]
    error := none }

/-- C2: a determination cycle whose backend call fails records the error
message on the record's `error` field while `currentState`,
`previousState`, `facts`, `confidence` and `transitions` are unchanged,
and the cycle re-raises the error; moreover every successful
determination (non-empty facts, cycle resolves) has `error = none` on the
resulting record. -/
theorem error_stale_state (cacheExpiry : Nat) (msg : String) (now : Nat)
    (st : StateBotState σ) (cache : Cache σ)
    (hfacts : st.facts ≠ [])
    (hmiss : validCacheEntry cacheExpiry now cache
      (generateCacheKey st.facts) = none) :
    (updateState cacheExpiry (.error msg) now st cache).record.currentState =
      st.currentState ∧
    (updateState cacheExpiry (.error msg) now st cache).record.previousState =
      st.previousState ∧
    (updateState cacheExpiry (.error msg) now st cache).record.facts =
      st.facts ∧
    (updateState cacheExpiry (.error msg) now st cache).record.confidence =
      st.confidence ∧
    (updateState cacheExpiry (.error msg) now st cache).record.transitions =
      st.transitions ∧
    (updateState cacheExpiry (.error msg) now st cache).record.error =
      some msg ∧
    (updateState cacheExpiry (.error msg) now st cache).result =
      .error msg ∧
    (∀ (backend : Except String (LLMResp σ)) (now2 : Nat)
       (st2 : StateBotState σ) (c2 : Cache σ) (s : Option σ),
       st2.facts ≠ [] →
       (updateState cacheExpiry backend now2 st2 c2).result = .ok s →
       (updateState cacheExpiry backend now2 st2 c2).record.error = none) := by
  refine ⟨by simp [updateState, hfacts, hmiss],
    by simp [updateState, hfacts, hmiss],
    by simp [updateState, hfacts, hmiss],
    by simp [updateState, hfacts, hmiss],
    by simp [updateState, hfacts, hmiss],
    by simp [updateState, hfacts, hmiss],
    by simp [updateState, hfacts, hmiss], ?_⟩
  intro backend now2 st2 c2 s h2 hres
  unfold updateState at hres ⊢
  rw [if_neg h2] at hres ⊢
  cases hv : validCacheEntry cacheExpiry now2 c2 (generateCacheKey st2.facts) with
  | some e => simp [hv, updateStateStore]
  | none =>
    simp only [hv] at hres ⊢
    cases backend with
    | ok r => simp [updateStateStore]
    | error e => simp at hres

/-- Witness for C2: a failed backend call on a store with current state
`X` keeps the state and records the message. -/
theorem error_stale_state_witness :
    (updateState 300000 (.error "boom") 7 recC2
      ([] : Cache String)).record.currentState = recC2.currentState ∧
    (updateState 300000 (.error "boom") 7 recC2
      ([] : Cache String)).record.error = some "boom" ∧
    (updateState 300000 (.error "boom") 7 recC2
      ([] : Cache String)).result = .error "boom" :=
  ⟨(error_stale_state 300000 "boom" 7 recC2 [] (by decide) rfl).1,
   (error_stale_state 300000 "boom" 7 recC2 [] (by decide) rfl).2.2.2.2.2.1,
   (error_stale_state 300000 "boom" 7 recC2 [] (by decide) rfl).2.2.2.2.2.2.1⟩

/-- Two `determineState()` calls in a row (each is `updateState` after the
timer cancel): the second runs on the record and cache produced by the
first. -/
def twoCalls (cacheExpiry : Nat) (b1 b2 : Except String (LLMResp σ))
    (t1 t2 : Nat) (st : StateBotState σ) (cache : Cache σ) :
    UpdateOutcome σ × UpdateOutcome σ :=
  let u1 := updateState cacheExpiry b1 t1 st cache
  (u1, updateState cacheExpiry b2 t2 u1.record u1.cache)

/-- C6: with unchanged non-empty facts, a first `determineState()` that
misses the cache and succeeds, and a second call while the written entry
is not expired, both calls resolve with the same state and confidence,
and the two calls together consult the backend at most once (the second
is a cache hit, whatever its backend would have answered). -/
theorem determineState_idempotent_cached (cacheExpiry : Nat)
    (r : LLMResp σ) (b2 : Except String (LLMResp σ)) (t1 t2 : Nat)
    (st : StateBotState σ) (cache : Cache σ)
    (hfacts : st.facts ≠ [])
    (hmiss : validCacheEntry cacheExpiry t1 cache
      (generateCacheKey st.facts) = none)
    (hexp : t2 - t1 < cacheExpiry) :
    (twoCalls cacheExpiry (.ok r) b2 t1 t2 st cache).1.result =
      .ok (some r.state) ∧
    (twoCalls cacheExpiry (.ok r) b2 t1 t2 st cache).2.result =
      .ok (some r.state) ∧
    (twoCalls cacheExpiry (.ok r) b2 t1 t2 st cache).1.record.currentState =
      some r.state ∧
    (twoCalls cacheExpiry (.ok r) b2 t1 t2 st cache).2.record.currentState =
      some r.state ∧
    (twoCalls cacheExpiry (.ok r) b2 t1 t2 st cache).1.record.confidence =
      r.confidence ∧
    (twoCalls cacheExpiry (.ok r) b2 t1 t2 st cache).2.record.confidence =
      r.confidence ∧
    (twoCalls cacheExpiry (.ok r) b2 t1 t2 st cache).1.backendCalls +
      (twoCalls cacheExpiry (.ok r) b2 t1 t2 st cache).2.backendCalls ≤ 1 := by
  have h1 : updateState cacheExpiry (.ok r) t1 st cache =
      { result := .ok (some r.state)
        record := updateStateStore r.state r.confidence t1 st
        cache := cacheSet cache (generateCacheKey st.facts)
          { state := r.state, confidence := r.confidence, timestamp := t1 }
        backendCalls := 1 } := by
    simp [updateState, hfacts, hmiss]
  have hfacts1 : (updateStateStore r.state r.confidence t1 st).facts =
      st.facts := updateStateStore_facts ..
  have hhit : validCacheEntry cacheExpiry t2
      (cacheSet cache (generateCacheKey st.facts)
        { state := r.state, confidence := r.confidence, timestamp := t1 })
      (generateCacheKey st.facts) =
      some { state := r.state, confidence := r.confidence, timestamp := t1 } := by
    simp [validCacheEntry, cacheGet, cacheSet, List.lookup, isCacheValid, hexp]
  have h2 : updateState cacheExpiry b2 t2
      (updateStateStore r.state r.confidence t1 st)
      (cacheSet cache (generateCacheKey st.facts)
        { state := r.state, confidence := r.confidence, timestamp := t1 }) =
      { result := .ok (some r.state)
        record := updateStateStore r.state r.confidence t2
          (updateStateStore r.state r.confidence t1 st)
        cache := cacheSet cache (generateCacheKey st.facts)
          { state := r.state, confidence := r.confidence, timestamp := t1 }
        backendCalls := 0 } := by
    simp [updateState, hfacts1, hfacts, hhit]
  simp only [twoCalls, h1, h2]
  simp [updateStateStore]

/-- Concrete record for the C6 witness. -/
def recC6 : StateBotState String :=
  { currentState := none, previousState := none, facts := ["f1", "f2"]
    confidence := 0, lastUpdated := 0, transitions := [], error := none }

/-- Witness for C6: two calls at times 0 and 100 with a 300000 expiry and
an initially empty cache. -/
theorem determineState_idempotent_cached_witness :
    (twoCalls 300000 (.ok ⟨"A", 1⟩) (.error "down") 0 100 recC6
      ([] : Cache String)).1.result = .ok (some "A") ∧
    (twoCalls 300000 (.ok ⟨"A", 1⟩) (.error "down") 0 100 recC6
      ([] : Cache String)).2.result = .ok (some "A") ∧
    (twoCalls 300000 (.ok ⟨"A", 1⟩) (.error "down") 0 100 recC6
      ([] : Cache String)).1.backendCalls +
      (twoCalls 300000 (.ok ⟨"A", 1⟩) (.error "down") 0 100 recC6
        ([] : Cache String)).2.backendCalls ≤ 1 :=
  ⟨(determineState_idempotent_cached 300000 ⟨"A", 1⟩ (.error "down") 0 100
      recC6 [] (by decide) rfl (by decide)).1,
   (determineState_idempotent_cached 300000 ⟨"A", 1⟩ (.error "down") 0 100
      recC6 [] (by decide) rfl (by decide)).2.1,
   (determineState_idempotent_cached 300000 ⟨"A", 1⟩ (.error "down") 0 100
      recC6 [] (by decide) rfl (by decide)).2.2.2.2.2.2⟩

/-- The observable outcome of a provider's `determineState` retry loop:
the settled value, the number of attempts actually made, and the backoff
delays slept between attempts, in order. -/
structure AttemptOutcome (σ : Type) where
  result : Except String (LLMResp σ)
  calls : Nat
  waits : List Nat

/-- The `while (attempts < this.retryCount)` retry loop shared verbatim by
`ClaudeService.determineState`, `GeminiService.determineState` and
`ChatGPTService.determineState`.  `backend i` is the awaited outcome of
the loop body on attempt `i` (network error, non-2xx response and
JSON-extraction/parse failure all land in the same `catch` arm).  The
argument order is `fuel attempts lastError calls waits`; `fuel` stands
for `retryCount - attempts`, which turns the while loop into a structural
recursion.  On failure the loop increments `attempts` and, if
`attempts < retryCount` still holds, sleeps `2 ^ attempts * 500` before
the next try; when the loop exhausts, the last error is thrown. -/
def retryLoop (backend : Nat → Except String (LLMResp σ)) (retryCount : Nat) :
    Nat → Nat → Option String → Nat → List Nat → AttemptOutcome σ
  | 0, _, lastError, calls, waits =>
    { result := .error (lastError.getD "Failed to determine state")
      calls := calls, waits := waits }
  | fuel + 1, attempts, _, calls, waits =>
    match backend attempts with
    | .ok r => { result := .ok r, calls := calls + 1, waits := waits }
    | .error e =>
      retryLoop backend retryCount fuel (attempts + 1) (some e) (calls + 1)
        (if attempts + 1 < retryCount then waits ++ [2 ^ (attempts + 1) * 500]
         else waits)

/-- A provider's `determineState`: run the retry loop from attempt 0 with
no recorded error. -/
def clientDetermineState (backend : Nat → Except String (LLMResp σ))
    (retryCount : Nat) : AttemptOutcome σ :=
  retryLoop backend retryCount retryCount 0 none 0 []

/-- One loop iteration whose body fails: record the error, count the
attempt, and sleep the backoff when another attempt remains. -/
theorem retryLoop_step_error (backend : Nat → Except String (LLMResp σ))
    (retryCount fuel attempts : Nat) (lastErr : Option String) (calls : Nat)
    (waits : List Nat) (e : String) (hb : backend attempts = .error e) :
    retryLoop backend retryCount (fuel + 1) attempts lastErr calls waits =
      retryLoop backend retryCount fuel (attempts + 1) (some e) (calls + 1)
        (if attempts + 1 < retryCount then waits ++ [2 ^ (attempts + 1) * 500]
         else waits) := by
  conv => lhs; rw [retryLoop]
  rw [hb]

/-- One loop iteration whose body succeeds: return the response. -/
theorem retryLoop_step_ok (backend : Nat → Except String (LLMResp σ))
    (retryCount fuel attempts : Nat) (lastErr : Option String) (calls : Nat)
    (waits : List Nat) (r : LLMResp σ) (hb : backend attempts = .ok r) :
    retryLoop backend retryCount (fuel + 1) attempts lastErr calls waits =
      { result := .ok r, calls := calls + 1, waits := waits } := by
  conv => lhs; rw [retryLoop]
  rw [hb]

/-- When every attempt in the remaining window fails, the loop makes all
remaining attempts, sleeps the exponential backoff between consecutive
attempts, and throws the error of the last attempt. -/
theorem retryLoop_all_fail (backend : Nat → Except String (LLMResp σ))
    (retryCount : Nat) (errs : Nat → String) :
    ∀ (fuel attempts : Nat) (lastErr : Option String) (calls : Nat)
      (waits : List Nat),
    attempts + fuel = retryCount → 0 < fuel →
    (∀ i, attempts ≤ i → i < retryCount → backend i = .error (errs i)) →
    retryLoop backend retryCount fuel attempts lastErr calls waits =
      { result := .error (errs (retryCount - 1))
        calls := calls + fuel
        waits := waits ++ (List.range' (attempts + 1) (fuel - 1)).map
          (fun k => 2 ^ k * 500) } := by
  intro fuel
  induction fuel with
  | zero => intro attempts lastErr calls waits _ h0; exact absurd h0 (by omega)
  | succ f ih =>
    intro attempts lastErr calls waits hsum _ hfail
    have hb : backend attempts = .error (errs attempts) :=
      hfail attempts le_rfl (by omega)
    rw [retryLoop_step_error backend retryCount f attempts lastErr calls
      waits _ hb]
    cases f with
    | zero =>
      have hnot : ¬ attempts + 1 < retryCount := by omega
      have hlast : attempts = retryCount - 1 := by omega
      rw [if_neg hnot]
      conv => lhs; rw [retryLoop]
      simp [hlast]
    | succ g =>
      have hlt : attempts + 1 < retryCount := by omega
      rw [if_pos hlt]
      rw [ih (attempts + 1) (some (errs attempts)) (calls + 1)
        (waits ++ [2 ^ (attempts + 1) * 500]) (by omega) (by omega)
        (fun i hi hi2 => hfail i (by omega) hi2)]
      simp only [AttemptOutcome.mk.injEq]
      refine ⟨by simp, by omega, ?_⟩
      rw [Nat.succ_sub_one, Nat.succ_sub_one, List.range'_succ]
      simp [List.append_assoc]

/-- When every attempt before the last one fails and the last attempt
succeeds, the loop resolves with the success and has made every attempt. -/
theorem retryLoop_eventually_ok (backend : Nat → Except String (LLMResp σ))
    (retryCount : Nat) (r : LLMResp σ) :
    ∀ (fuel attempts : Nat) (lastErr : Option String) (calls : Nat)
      (waits : List Nat),
    attempts + fuel = retryCount → 0 < fuel →
    (∀ i, attempts ≤ i → i < retryCount - 1 → ∃ e, backend i = .error e) →
    backend (retryCount - 1) = .ok r →
    (retryLoop backend retryCount fuel attempts lastErr calls waits).result =
      .ok r ∧
    (retryLoop backend retryCount fuel attempts lastErr calls waits).calls =
      calls + fuel := by
  intro fuel
  induction fuel with
  | zero => intro attempts lastErr calls waits _ h0; exact absurd h0 (by omega)
  | succ f ih =>
    intro attempts lastErr calls waits hsum _ hfail hok
    cases f with
    | zero =>
      have hlast : attempts = retryCount - 1 := by omega
      have hb : backend attempts = .ok r := by rw [hlast]; exact hok
      rw [retryLoop_step_ok backend retryCount 0 attempts lastErr calls
        waits r hb]
      simp
    | succ g =>
      obtain ⟨e, he⟩ := hfail attempts le_rfl (by omega)
      rw [retryLoop_step_error backend retryCount (g + 1) attempts lastErr
        calls waits e he]
      have := ih (attempts + 1) (some e) (calls + 1)
        (if attempts + 1 < retryCount then waits ++ [2 ^ (attempts + 1) * 500]
         else waits) (by omega) (by omega)
        (fun i hi hi2 => hfail i (by omega) hi2) hok
      exact ⟨this.1, by rw [this.2]; omega⟩

/-- C4: the provider retry loop retries up to `retryCount` attempts in
total with backoff `2 ^ attempt * 500` between attempts (attempt = 1,
2, ...); if every attempt fails, the last error is raised after exactly
`retryCount` attempts; and a backend failing on every attempt before the
last one and succeeding on the last resolves successfully with the
backend's final response after exactly `retryCount` attempts. -/
theorem llm_retry_backoff (backend : Nat → Except String (LLMResp σ))
    (retryCount : Nat) (errs : Nat → String) (r : LLMResp σ)
    (hpos : 0 < retryCount) :
    ((∀ i, i < retryCount → backend i = .error (errs i)) →
      clientDetermineState backend retryCount =
        { result := .error (errs (retryCount - 1))
          calls := retryCount
          waits := (List.range' 1 (retryCount - 1)).map
            (fun k => 2 ^ k * 500) }) ∧
    ((∀ i, i < retryCount - 1 → ∃ e, backend i = .error e) →
      backend (retryCount - 1) = .ok r →
      (clientDetermineState backend retryCount).result = .ok r ∧
      (clientDetermineState backend retryCount).calls = retryCount) := by
  constructor
  · intro hfail
    have := retryLoop_all_fail backend retryCount errs retryCount 0 none 0 []
      (by omega) hpos (fun i _ hi => hfail i hi)
    simpa [clientDetermineState] using this
  · intro hfail hok
    have := retryLoop_eventually_ok backend retryCount r retryCount 0 none 0 []
      (by omega) hpos (fun i _ hi => hfail i hi) hok
    simpa [clientDetermineState] using this

/-- Backend for the C4 witness: fails twice, then answers state `A`. -/
def flakyBackend : Nat → Except String (LLMResp String) :=
  fun i => if i < 2 then .error "boom" else .ok ⟨"A", 1⟩

/-- Witness for C4: with `retryCount = 3`, a backend failing exactly twice
resolves successfully after exactly 3 attempts. -/
theorem llm_retry_backoff_witness :
    (clientDetermineState flakyBackend 3).result = .ok ⟨"A", 1⟩ ∧
    (clientDetermineState flakyBackend 3).calls = 3 :=
  (llm_retry_backoff flakyBackend 3 (fun _ => "boom") ⟨"A", 1⟩
      (by decide)).2
    (fun i hi => ⟨"boom", by
      show (if i < 2 then Except.error "boom" else _) = Except.error "boom"
      rw [if_pos (by omega)]⟩)
    rfl

/-- Timed events hitting the scheduler of `StateBotStore`: a fact
mutation (`addFact` / `addFacts` / `removeFact`, each of which ends in
`scheduleStateUpdate()`), or an explicit `determineState()` call. -/
inductive SchedEvent where
  | mutation (t : Nat)
  | explicitCall (t : Nat)

/-- The instant at which an event occurs. -/
def SchedEvent.time : SchedEvent → Nat
  | .mutation t => t
  | .explicitCall t => t

/-- The scheduler state: the deadline of the pending `setTimeout` timer
(`updateTimer`), and how many determination cycles ran, split by trigger:
timer callbacks (`debounceFires`) versus explicit `determineState()`
calls (`explicitRuns`). -/
structure SchedState where
  timer : Option Nat
  debounceFires : Nat
  explicitRuns : Nat
  deriving DecidableEq

/-- The single-threaded JS event loop runs a due timer callback before any
later event is processed: if the pending deadline is not after the next
event's time, the timer fires (one debounce-triggered determination) and
clears. -/
def fireIfDue (s : SchedState) (t : Nat) : SchedState :=
  match s.timer with
  | some d =>
    if d ≤ t then
      { s with timer := none, debounceFires := s.debounceFires + 1 }
    else s
  | none => s

/-- Processing one event. A mutation runs `scheduleStateUpdate`
(lines 146-162): `clearTimeout` of the pending timer and a fresh
`setTimeout` for `debounceTime` later.  An explicit `determineState()`
(lines 122-129) clears the pending timer and runs a cycle immediately. -/
def schedStep (debounceTime : Nat) (s : SchedState) (e : SchedEvent) :
    SchedState :=
  let s1 := fireIfDue s e.time
  match e with
  | .mutation t => { s1 with timer := some (t + debounceTime) }
  | .explicitCall _ =>
    { s1 with timer := none, explicitRuns := s1.explicitRuns + 1 }

/-- After the trace is exhausted, a still-pending timer eventually fires. -/
def flushTimer (s : SchedState) : SchedState :=
  match s.timer with
  | some _ => { s with timer := none, debounceFires := s.debounceFires + 1 }
  | none => s

/-- Run a chronological event trace from the idle scheduler and let any
remaining timer fire. -/
def runSched (debounceTime : Nat) (events : List SchedEvent) : SchedState :=
  flushTimer (events.foldl (schedStep debounceTime) ⟨none, 0, 0⟩)

/-- Folding a burst of mutations whose consecutive gaps are below the
debounce time over a scheduler whose timer is armed by the burst's
previous mutation: no timer fires, and the timer ends re-armed at the
last mutation's time plus the debounce time. -/
theorem burst_fold (debounceTime : Nat) (ts : List Nat) :
    ∀ (prev : Nat) (s : SchedState),
    s.timer = some (prev + debounceTime) →
    List.Chain' (fun a b => a ≤ b ∧ b - a < debounceTime) (prev :: ts) →
    (ts.map SchedEvent.mutation).foldl (schedStep debounceTime) s =
      { s with timer := some (ts.getLastD prev + debounceTime) } := by
  induction ts with
  | nil =>
    intro prev s htimer _
    simp [List.getLastD, ← htimer]
  | cons t ts ih =>
    intro prev s htimer hchain
    have hgap : prev ≤ t ∧ t - prev < debounceTime :=
      (List.chain'_cons.mp hchain).1
    have hnofire : ¬ prev + debounceTime ≤ t := by omega
    have hstep : schedStep debounceTime s (SchedEvent.mutation t) =
        { s with timer := some (t + debounceTime) } := by
      simp [schedStep, fireIfDue, SchedEvent.time, htimer, hnofire]
    have hchain2 : List.Chain'
        (fun a b => a ≤ b ∧ b - a < debounceTime) (t :: ts) :=
      (List.chain'_cons.mp hchain).2
    calc ((t :: ts).map SchedEvent.mutation).foldl (schedStep debounceTime) s
        = (ts.map SchedEvent.mutation).foldl (schedStep debounceTime)
            { s with timer := some (t + debounceTime) } := by
          simp [hstep]
      _ = { s with timer := some (ts.getLastD t + debounceTime) } :=
          ih t { s with timer := some (t + debounceTime) } rfl hchain2
      _ = { s with timer := some ((t :: ts).getLastD prev + debounceTime) } :=
          by rw [List.getLastD_cons]

/-- C5: a burst of fact mutations each occurring within less than the
debounce time of the previous one triggers at most one debounce-fired
determination cycle (each mutation cancels and re-arms the single timer);
and when an explicit `determineState()` follows the burst before the
pending timer's deadline, the pending timer is cancelled: the explicit
call runs exactly once and the debounce path fires not at all. -/
theorem debounce_coalesces (debounceTime : Nat) (ts : List Nat) (te : Nat)
    (hchain : List.Chain' (fun a b => a ≤ b ∧ b - a < debounceTime) ts) :
    (runSched debounceTime (ts.map SchedEvent.mutation)).debounceFires ≤ 1 ∧
    (ts ≠ [] → te < ts.getLastD 0 + debounceTime →
      (runSched debounceTime (ts.map SchedEvent.mutation ++
        [SchedEvent.explicitCall te])).debounceFires = 0 ∧
      (runSched debounceTime (ts.map SchedEvent.mutation ++
        [SchedEvent.explicitCall te])).explicitRuns = 1) := by
  cases ts with
  | nil =>
    refine ⟨?_, fun h _ => absurd rfl h⟩
    simp [runSched, flushTimer]
  | cons t ts =>
    have hstep0 : schedStep debounceTime ⟨none, 0, 0⟩
        (SchedEvent.mutation t) =
        ⟨some (t + debounceTime), 0, 0⟩ := by
      simp [schedStep, fireIfDue, SchedEvent.time]
    have hfold : ((t :: ts).map SchedEvent.mutation).foldl
        (schedStep debounceTime) ⟨none, 0, 0⟩ =
        ⟨some (ts.getLastD t + debounceTime), 0, 0⟩ := by
      calc ((t :: ts).map SchedEvent.mutation).foldl
            (schedStep debounceTime) ⟨none, 0, 0⟩
          = (ts.map SchedEvent.mutation).foldl (schedStep debounceTime)
              ⟨some (t + debounceTime), 0, 0⟩ := by simp [hstep0]
        _ = ⟨some (ts.getLastD t + debounceTime), 0, 0⟩ :=
            burst_fold debounceTime ts t _ rfl hchain
    constructor
    · rw [runSched, hfold]
      simp [flushTimer]
    · intro _ hte
      rw [List.getLastD_cons] at hte
      have hnofire : ¬ ts.getLast?.getD t + debounceTime ≤ te := by
        rw [← List.getLastD_eq_getLast?]; omega
      refine ⟨?_, ?_⟩ <;>
      · rw [runSched, List.foldl_append, hfold]
        simp [schedStep, fireIfDue, SchedEvent.time, hnofire, flushTimer]

/-- Witness for C5: three mutations at 0, 100, 300 with a 500 debounce,
and an explicit call at 400. -/
theorem debounce_coalesces_witness :
    (runSched 500 ([0, 100, 300].map SchedEvent.mutation)).debounceFires
      ≤ 1 ∧
    (runSched 500 ([0, 100, 300].map SchedEvent.mutation ++
      [SchedEvent.explicitCall 400])).debounceFires = 0 ∧
    (runSched 500 ([0, 100, 300].map SchedEvent.mutation ++
      [SchedEvent.explicitCall 400])).explicitRuns = 1 :=
  ⟨(debounce_coalesces 500 [0, 100, 300] 400
      (by simp [List.chain'_cons])).1,
   (debounce_coalesces 500 [0, 100, 300] 400
      (by simp [List.chain'_cons])).2 (by simp) (by simp)⟩

/-- The observable behaviour of one public mutation method: the record
values pushed to the svelte store in order (each `store.update` /
`store.set` call synchronously notifies every subscriber with the value
it produces), the final record, whether the method invoked
`scheduleStateUpdate`, and how many backend calls it made synchronously. -/
structure MutationTrace (σ : Type) where
  notifications : List (StateBotState σ)
  final : StateBotState σ
  scheduled : Bool
  backendCalls : Nat
  deriving DecidableEq

/-- `addFact` (statebot.store.ts, lines 71-80): one `store.update`
appending the fact's content, then `scheduleStateUpdate()`. -/
def addFactOp (fact : String) (st : StateBotState σ) : MutationTrace σ :=
  let st1 := { st with facts := st.facts ++ [fact] }
  { notifications := [st1], final := st1, scheduled := true
    backendCalls := 0 }

/-- `addFacts` (lines 83-92): one `store.update` appending all contents,
then `scheduleStateUpdate()`. -/
def addFactsOp (facts : List String) (st : StateBotState σ) :
    MutationTrace σ :=
  let st1 := { st with facts := st.facts ++ facts }
  { notifications := [st1], final := st1, scheduled := true
    backendCalls := 0 }

/-- `removeFact` (lines 95-104): one `store.update` filtering out every
occurrence of the content, then `scheduleStateUpdate()`. -/
def removeFactOp (fact : String) (st : StateBotState σ) : MutationTrace σ :=
  let st1 := { st with facts := st.facts.filter (fun f => f ≠ fact) }
  { notifications := [st1], final := st1, scheduled := true
    backendCalls := 0 }

/-- `clearFacts` (lines 107-119): TWO `store.update` calls in sequence —
the first empties `facts`, the second nulls `currentState` and zeroes
`confidence`.  No scheduling, no backend call. -/
def clearFactsOp (st : StateBotState σ) : MutationTrace σ :=
  let st1 := { st with facts := [] }
  let st2 := { st1 with currentState := none, confidence := 0 }
  { notifications := [st1, st2], final := st2, scheduled := false
    backendCalls := 0 }

/-- `reset` (lines 132-143): one `store.set` of the initial record (the
cache purge does not touch the record). -/
def resetOp (now : Nat) (_st : StateBotState σ) : MutationTrace σ :=
  { notifications := [initialRecord now], final := initialRecord now
    scheduled := false, backendCalls := 0 }

/-- Applying a determination result (the `updateStateStore` call inside a
cycle): one `store.update`. -/
def applyDeterminationOp (newState : σ) (conf : ℚ) (now : Nat)
    (st : StateBotState σ) : MutationTrace σ :=
  let st1 := updateStateStore newState conf now st
  { notifications := [st1], final := st1, scheduled := false
    backendCalls := 0 }

/-- C7: for every record, `clearFacts()` synchronously ends with
`facts = []`, `currentState = none` and `confidence = 0`, makes no
backend call and does not schedule a debounced determination, while
`previousState` and `transitions` (and `lastUpdated` and `error`) are
left unchanged. -/
theorem clearFacts_bypasses_determination (st : StateBotState σ) :
    (clearFactsOp st).final.facts = [] ∧
    (clearFactsOp st).final.currentState = none ∧
    (clearFactsOp st).final.confidence = 0 ∧
    (clearFactsOp st).final.previousState = st.previousState ∧
    (clearFactsOp st).final.transitions = st.transitions ∧
    (clearFactsOp st).final.lastUpdated = st.lastUpdated ∧
    (clearFactsOp st).final.error = st.error ∧
    (clearFactsOp st).scheduled = false ∧
    (clearFactsOp st).backendCalls = 0 := by
  simp [clearFactsOp]

/-- Concrete record for the C9 counterexample: facts present and a known
current state, as in the spec's reset/clear scenario. -/
def recC9 : StateBotState String :=
  { currentState := some "X", previousState := none, facts := ["f1", "f2"]
    confidence := 0, lastUpdated := 0, transitions := [], error := none }

/-- C9 counterexample: `clearFacts` is not atomic with respect to
subscriber notification.  On a record with facts and current state `X`,
its first notification already has `facts = []` but still
`currentState = some X`, so a subscriber observes a state in which only
part of the mutation has taken effect. -/
theorem clearFacts_notifies_intermediate_state :
    ¬ (∀ n ∈ (clearFactsOp recC9).notifications,
        n = (clearFactsOp recC9).final) := by decide

/-- C9 amended: `addFact`, `addFacts`, `removeFact`, `reset` and the
application of a determination result each push exactly one value to the
store — the fully-applied post-state — so subscribers never observe them
half-applied; `clearFacts` alone pushes two values, the first of which
has `facts` emptied while `currentState` and `confidence` are not yet
reset. -/
theorem mutations_notify_only_final_except_clearFacts
    (st : StateBotState σ) (f : String) (fs : List String) (s : σ)
    (c : ℚ) (now : Nat) :
    (addFactOp f st).notifications = [(addFactOp f st).final] ∧
    (addFactsOp fs st).notifications = [(addFactsOp fs st).final] ∧
    (removeFactOp f st).notifications = [(removeFactOp f st).final] ∧
    (resetOp now st).notifications = [(resetOp now st).final] ∧
    (applyDeterminationOp s c now st).notifications =
      [(applyDeterminationOp s c now st).final] ∧
    (clearFactsOp st).notifications =
      [{ st with facts := [] }, (clearFactsOp st).final] :=
  ⟨rfl, rfl, rfl, rfl, rfl, rfl⟩

/-- Heap of mutable JS arrays, for the aliasing analysis of `getState()`:
an array value is addressed by its index.  `getState()` is
`get(this.store)` (statebot.store.ts, lines 66-68), and svelte's `get`
subscribes, captures the store's current value and unsubscribes — it
hands back the stored record object itself, not a copy, so the record's
`facts` array is shared between the caller and the store. -/
abbrev Heap := List (List String)

/-- The record object held by the writable store, with its `facts` array
by reference (the other array-valued field, `transitions`, behaves the
same way; one array suffices for the analysis). -/
structure StoreValue (σ : Type) where
  currentState : Option σ
  factsRef : Nat
  deriving DecidableEq

/-- `getState()`: returns the stored record object by reference. -/
def getState (v : StoreValue σ) : StoreValue σ := v

/-- What internal readers see when they dereference the record's facts
array (e.g. `updateState` reads `this.getState().facts`). -/
def observedFacts (h : Heap) (v : StoreValue σ) : List String :=
  h.getD v.factsRef []

/-- A caller's `record.facts.push(x)`: in-place mutation of the array the
reference points to. -/
def pushFact (h : Heap) (r : Nat) (x : String) : Heap :=
  h.set r (h.getD r [] ++ [x])

/-- Concrete heap for the C8 counterexample: one facts array `[f1]`. -/
def heapC8 : Heap := [["f1"]]

/-- Concrete store value for the C8 counterexample. -/
def valC8 : StoreValue String := { currentState := some "X", factsRef := 0 }

/-- C8 counterexample: `getState()` does not return a defensive copy.  A
caller that pushes onto the `facts` array of the record returned by
`getState()` changes the facts that the store's own later reads observe. -/
theorem getState_not_defensive_copy :
    observedFacts (pushFact heapC8 (getState valC8).factsRef "evil") valC8 ≠
      observedFacts heapC8 valC8 := by decide

/-- C8 amended: `getState()` returns the internal record by reference
(svelte's `get` performs no copy), so a caller mutation of the returned
record's `facts` array is visible to every later internal read: pushing
`x` through the returned reference makes the internally observed facts
equal the old facts with `x` appended. -/
theorem getState_aliases_internal_record (h : Heap) (v : StoreValue σ)
    (x : String) (href : v.factsRef < h.length) :
    getState v = v ∧
    observedFacts (pushFact h (getState v).factsRef x) v =
      observedFacts h v ++ [x] := by
  refine ⟨rfl, ?_⟩
  simp [observedFacts, pushFact, getState, List.getD_eq_getElem?_getD,
    List.getElem?_set_self, href]

/-- Witness for C8 amended, on the concrete heap and record. -/
theorem getState_aliases_internal_record_witness :
    getState valC8 = valC8 ∧
    observedFacts (pushFact heapC8 (getState valC8).factsRef "evil")
      valC8 = observedFacts heapC8 valC8 ++ ["evil"] :=
  getState_aliases_internal_record heapC8 valC8 "evil" (by decide)

end StateBot
